import Mathlib

/-!
Verification of the image-ingestion core of the Seekr vision assistant
(src/main.py, class `VisionAssistant`).

The embedding models:
- bytes as natural numbers, chunks as lists of bytes;
- `base64.b64encode` (standard RFC 4648 alphabet with `=` padding), used at
  src/main.py line 151;
- `ChatMessage` / chat context as built by `chat_ctx.add_message` at lines
  146-154;
- the coroutine `_image_received` (lines 139-158) as a sequential function
  over an explicit reader model, and as a small-step state machine
  interleaved by an explicit scheduler for the concurrency claims;
- the stream handler `_image_received_handler` and the `_tasks` tracking
  list (lines 126-131);
- the single `register_byte_stream_handler("test", ...)` call (line 133).
-/

/-- One byte, as delivered inside a stream chunk. -/
abbrev Byte := Nat

/-- The standard base64 alphabet used by Python `base64.b64encode`. -/
def b64Alphabet : List Char :=
  [ 'A','B','C','D','E','F','G','H','I','J','K','L','M','N','O','P',
    'Q','R','S','T','U','V','W','X','Y','Z',
    'a','b','c','d','e','f','g','h','i','j','k','l','m','n','o','p',
    'q','r','s','t','u','v','w','x','y','z',
    '0','1','2','3','4','5','6','7','8','9','+','/' ]

/-- The alphabet character for a 6-bit value. -/
def b64Char (n : Nat) : Char := b64Alphabet.getD n 'A'

/-- Encode a byte list in groups of three, exactly as RFC 4648 base64 with
`=` padding (the encoding `base64.b64encode` performs). -/
def b64EncodeGroups : List Byte → List Char
  | [] => []
  | [b0] =>
      [b64Char (b0 / 4), b64Char (b0 % 4 * 16), '=', '=']
  | [b0, b1] =>
      [b64Char (b0 / 4), b64Char (b0 % 4 * 16 + b1 / 16),
       b64Char (b1 % 16 * 4), '=']
  | b0 :: b1 :: b2 :: rest =>
      b64Char (b0 / 4) :: b64Char (b0 % 4 * 16 + b1 / 16) ::
      b64Char (b1 % 16 * 4 + b2 / 64) :: b64Char (b2 % 64) ::
      b64EncodeGroups rest

/-- `base64.b64encode(bs).decode("utf-8")` from src/main.py line 151. -/
def b64encode (bs : List Byte) : String := String.mk (b64EncodeGroups bs)

/-- A content item of a chat message: plain text or an image reference
(`ImageContent(image=...)` in src/main.py). -/
inductive ContentItem where
  | text (s : String)
  | image (s : String)
deriving Repr, DecidableEq

/-- One chat message, as built by `chat_ctx.add_message(role=..., content=...)`. -/
structure ChatMessage where
  role : String
  content : List ContentItem
deriving Repr, DecidableEq

/-- The conversation context: an ordered sequence of messages. -/
abbrev ChatContext := List ChatMessage

/-- The data-URL string built at src/main.py line 151:
`f"data:image/png;base64,{base64.b64encode(image_bytes).decode('utf-8')}"`. -/
def imageDataUrl (bs : List Byte) : String :=
  "data:image/png;base64," ++ b64encode bs

/-- The message appended by `_image_received` (src/main.py lines 147-154):
role `"user"`, content a single `ImageContent` holding the data URL. -/
def mkImageMessage (bs : List Byte) : ChatMessage :=
  { role := "user", content := [ContentItem.image (imageDataUrl bs)] }

/-- One event observed while iterating the byte-stream reader: either the
next chunk, or an exception raised mid-stream. -/
inductive ChunkEvent where
  | chunk (c : List Byte)
  | err (e : String)
deriving Repr, DecidableEq

/-- The accumulation loop of src/main.py lines 142-144
(`image_bytes = bytes(); async for chunk in reader: image_bytes += chunk`),
with the accumulator explicit: consume events in order, appending each
chunk's bytes, until end-of-stream or a raised error. -/
def drainFrom (acc : List Byte) : List ChunkEvent → Except String (List Byte)
  | [] => Except.ok acc
  | ChunkEvent.chunk c :: rest => drainFrom (acc ++ c) rest
  | ChunkEvent.err e :: _ => Except.error e

/-- Model of one `ByteStreamReader` as `_image_received` observes it:
the `reader.info.name` metadata access (which may itself raise), the
sequence of chunk events, and the outcome of `update_chat_ctx`. -/
structure Reader where
  infoName : Except String String
  events : List ChunkEvent
  mergeResult : Except String Unit
deriving Repr

/-- A log record emitted by the unit (`logger.info` at line 140,
`logger.error` at line 158). -/
inductive LogEntry where
  | info (participant : String) (streamName : String)
  | error (msg : String)
deriving Repr, DecidableEq

/-- What one run of `_image_received` leaves behind: the context after the
unit finished, the log records it emitted, and whether the coroutine
returned normally (`Except.ok`) or terminated with an uncaught exception
(`Except.error`). -/
structure UnitResult where
  ctx : ChatContext
  logged : List LogEntry
  outcome : Except String Unit
deriving Repr

/-- The coroutine `_image_received` (src/main.py lines 139-158), run to
completion in isolation. Line 140 reads `reader.info.name` and logs before
the `try:` block, so a metadata failure escapes uncaught. Inside the
`try:`, the chunks are drained; then the context is copied, the image
message appended, and the new snapshot published via `update_chat_ctx`;
any exception in that block is caught and logged (line 157-158). -/
def imageReceived (participant : String) (r : Reader) (ctx : ChatContext) :
    UnitResult :=
  match r.infoName with
  | Except.error e => { ctx := ctx, logged := [], outcome := Except.error e }
  | Except.ok name =>
    match drainFrom [] r.events with
    | Except.error e =>
        { ctx := ctx
          logged := [LogEntry.info participant name, LogEntry.error e]
          outcome := Except.ok () }
    | Except.ok bs =>
      match r.mergeResult with
      | Except.error e =>
          { ctx := ctx
            logged := [LogEntry.info participant name, LogEntry.error e]
            outcome := Except.ok () }
      | Except.ok _ =>
          { ctx := ctx ++ [mkImageMessage bs]
            logged := [LogEntry.info participant name]
            outcome := Except.ok () }

/-- `self._tasks.append(task)` in `_image_received_handler`
(src/main.py line 130). -/
def tasksAppend (tasks : List Nat) (t : Nat) : List Nat := tasks ++ [t]

/-- The done callback `lambda t: self._tasks.remove(t)` (src/main.py
line 131): Python `list.remove` deletes the first occurrence. asyncio runs
the callback whether the task succeeded or raised. -/
def tasksRetire (tasks : List Nat) (t : Nat) : List Nat := tasks.erase t

/-- The full lifecycle of one unit as orchestrated by the handler and the
done callback: the handle is appended at spawn and removed when the task
finishes, regardless of outcome. Returns the context left by the unit,
the tracking list after retirement, and the unit's result. -/
def runUnit (participant : String) (r : Reader) (ctx : ChatContext)
    (tasks : List Nat) (t : Nat) : ChatContext × List Nat × UnitResult :=
  let res := imageReceived participant r ctx
  (res.ctx, tasksRetire (tasksAppend tasks t) t, res)

/-!
## Interleaving semantics for concurrent ingestion units

asyncio multiplexes the `_image_received` coroutines on one thread; a
coroutine runs atomically between suspension points. The suspension points
of `_image_received` on the success path are each `async for` chunk await
(line 143) and the `await self.update_chat_ctx(chat_ctx)` at line 155.
Crucially, `chat_ctx = self.chat_ctx.copy()` (line 146) and `add_message`
(lines 147-154) run in the same atomic segment as the last chunk resume,
and then the coroutine suspends on the awaited update: the snapshot it
will publish was built from the context as read at copy time, while other
units may run before the publish completes.
-/

/-- The phase of one in-flight ingestion unit:
* `draining buf pending` — inside the `async for` loop; `buf` is the
  exclusively owned accumulation buffer, `pending` the chunks yet to be
  delivered (this machine models the success path: no chunk raises);
* `merging snap` — the loop finished, `self.chat_ctx.copy()` and
  `add_message` ran, and the unit is suspended on
  `await self.update_chat_ctx(snap)`;
* `retired` — the coroutine returned and the done callback fired. -/
inductive UnitPhase where
  | draining (buf : List Byte) (pending : List (List Byte))
  | merging (snap : ChatContext)
  | retired
deriving Repr, DecidableEq

/-- Shared system state: the single shared chat context and the phases of
all spawned units (unit i is `units[i]`). -/
structure Sys where
  ctx : ChatContext
  units : List UnitPhase
deriving Repr, DecidableEq

/-- One scheduler step of unit in phase `p` against shared context `ctx`:
* a draining unit with a pending chunk receives it and appends its bytes
  to its own buffer (line 144);
* a draining unit whose stream is exhausted copies the CURRENT shared
  context, appends its image message, and suspends on the update
  (lines 146-155);
* a merging unit's awaited `update_chat_ctx` completes, replacing the
  shared context with the unit's snapshot, and the unit retires;
* a retired unit does nothing. -/
def stepUnit (ctx : ChatContext) : UnitPhase → UnitPhase × ChatContext
  | UnitPhase.draining buf (c :: rest) =>
      (UnitPhase.draining (buf ++ c) rest, ctx)
  | UnitPhase.draining buf [] =>
      (UnitPhase.merging (ctx ++ [mkImageMessage buf]), ctx)
  | UnitPhase.merging snap => (UnitPhase.retired, snap)
  | UnitPhase.retired => (UnitPhase.retired, ctx)

/-- Run one scheduler step on unit `i` (no-op if `i` is out of range). -/
def step (s : Sys) (i : Nat) : Sys :=
  match s.units.get? i with
  | none => s
  | some p =>
      let (p2, ctx2) := stepUnit s.ctx p
      { ctx := ctx2, units := s.units.set i p2 }

/-- Run a whole schedule: the scheduler's choice of which unit to resume
at each suspension point, in order. -/
def run (s : Sys) (sched : List Nat) : Sys := sched.foldl step s

/-- `_image_received_handler` (src/main.py lines 126-131) as it acts on
the system state: it spawns the unit — `asyncio.create_task` creates the
task in its initial state, before any of its code has run — and returns.
It performs none of the transfer itself. -/
def handlerSpawn (s : Sys) (chunks : List (List Byte)) : Sys :=
  { ctx := s.ctx, units := s.units ++ [UnitPhase.draining [] chunks] }

/-!
## The stream-registration surface

`on_enter` (src/main.py line 133) makes exactly one registration call:
`register_byte_stream_handler("test", _image_received_handler)`. The
registry itself lives in the external session layer, not in this
repository; it is modelled from the spec below.
-/

/-- The channel names `on_enter` registers, in call order (src/main.py
line 133: a single call with the fixed name `"test"`). -/
def onEnterChannelNames : List String := ["test"]

/-- Modelled from the spec: the external session's byte-stream handler
registry (`register_byte_stream_handler` is library code, absent from
src/). Per the spec, `register(streamName, onNewStream)` registers exactly
one handler for a given channel name, registering the same name twice is
rejected or a no-op, and each incoming stream is dispatched to the handler
of its channel name, never to two handlers. We model the guarded variant:
a duplicate registration is rejected with an error. -/
structure StreamRegistry where
  handlers : List (String × Nat)
deriving Repr, DecidableEq

/-- Modelled from the spec: register a handler (identified by an opaque
id) for a channel name; a second registration for the same name is
rejected. -/
def registerByteStreamHandler (reg : StreamRegistry) (name : String)
    (h : Nat) : Except String StreamRegistry :=
  if (reg.handlers.map Prod.fst).contains name then
    Except.error "handler already registered"
  else
    Except.ok ⟨reg.handlers ++ [(name, h)]⟩

/-- Modelled from the spec: the handlers an incoming stream on channel
`name` is dispatched to. -/
def dispatchStream (reg : StreamRegistry) (name : String) : List Nat :=
  (reg.handlers.filter (fun p => p.1 == name)).map Prod.snd

/-- The registry state after `on_enter` has run, starting from the empty
registry of a fresh session (handler id 0 stands for
`_image_received_handler`). -/
def registryAfterOnEnter : Except String StreamRegistry :=
  registerByteStreamHandler ⟨[]⟩ "test" 0

/-!
## Helper lemmas
-/

/-- Draining a run of chunk events (none raising) appends their
concatenation, in delivery order, to the accumulator. -/
lemma drainFrom_map_chunk (cs : List (List Byte)) (acc : List Byte) :
    drainFrom acc (cs.map ChunkEvent.chunk) = Except.ok (acc ++ cs.flatten) := by
  induction cs generalizing acc with
  | nil => simp [drainFrom]
  | cons c rest ih => simp [drainFrom, ih]

/-- Reduction of `imageReceived` on the success path. -/
lemma imageReceived_ok (p n : String) (cs : List (List Byte))
    (ctx : ChatContext) :
    imageReceived p ⟨Except.ok n, cs.map ChunkEvent.chunk, Except.ok ()⟩ ctx =
      ⟨ctx ++ [mkImageMessage cs.flatten], [LogEntry.info p n], Except.ok ()⟩ := by
  simp [imageReceived, drainFrom_map_chunk]

/-- Reduction of `imageReceived` when the reader raises mid-stream:
the exception is caught, logged after the info line, and the context is
returned untouched. -/
lemma imageReceived_drain_error (p n e : String) (r : Reader)
    (ctx : ChatContext)
    (hname : r.infoName = Except.ok n)
    (hfail : drainFrom [] r.events = Except.error e) :
    imageReceived p r ctx =
      ⟨ctx, [LogEntry.info p n, LogEntry.error e], Except.ok ()⟩ := by
  obtain ⟨info, events, merge⟩ := r
  dsimp only at hname hfail
  subst hname
  simp [imageReceived, hfail]

/-- Reduction of `imageReceived` when draining succeeds but the awaited
`update_chat_ctx` raises: caught, logged, context untouched. -/
lemma imageReceived_merge_error (p n e : String) (bs : List Byte) (r : Reader)
    (ctx : ChatContext)
    (hname : r.infoName = Except.ok n)
    (hdrain : drainFrom [] r.events = Except.ok bs)
    (hmerge : r.mergeResult = Except.error e) :
    imageReceived p r ctx =
      ⟨ctx, [LogEntry.info p n, LogEntry.error e], Except.ok ()⟩ := by
  obtain ⟨info, events, merge⟩ := r
  dsimp only at hname hdrain hmerge
  subst hname; subst hmerge
  simp [imageReceived, hdrain]

/-- Appending a fresh task handle and then retiring it restores the
tracking list (Python `list.remove` deletes the first occurrence). -/
lemma tasksRetire_tasksAppend (tasks : List Nat) (t : Nat)
    (ht : t ∉ tasks) :
    tasksRetire (tasksAppend tasks t) t = tasks := by
  simp [tasksRetire, tasksAppend, List.erase_append_right _ ht]

/-!
## Claim theorems
-/

/-- C2: for every sequence of chunks `c1..cn` delivered over one reader,
the payload assembled by the accumulation loop of `_image_received`
equals the exact byte concatenation `c1‖c2‖…‖cn` in delivery order — no
reordering, deduplication, or truncation. -/
theorem assembled_payload_eq_concat (cs : List (List Byte)) :
    drainFrom [] (cs.map ChunkEvent.chunk) = Except.ok cs.flatten := by
  simpa using drainFrom_map_chunk cs []

/-- C3: for every successfully assembled payload, the message appended to
the context has role `"user"` and a single image content item whose
string is exactly `"data:image/png;base64,"` followed by the base64
encoding of the assembled bytes (hence it always starts with
`"data:image/png;base64,"`). -/
theorem merged_message_role_and_data_url (p n : String)
    (cs : List (List Byte)) (ctx : ChatContext) :
    (imageReceived p ⟨Except.ok n, cs.map ChunkEvent.chunk,
        Except.ok ()⟩ ctx).ctx =
      ctx ++ [{ role := "user",
                content := [ContentItem.image
                  ("data:image/png;base64," ++ b64encode cs.flatten)] }] := by
  simp [imageReceived_ok, mkImageMessage, imageDataUrl]

/-- C9: a reader that yields zero chunks (immediate end-of-stream) still
succeeds: a message with image content exactly `"data:image/png;base64,"`
(empty base64 payload) is appended; no guard rejects the empty payload. -/
theorem empty_stream_still_appends (p n : String) (ctx : ChatContext) :
    imageReceived p ⟨Except.ok n, [], Except.ok ()⟩ ctx =
      ⟨ctx ++ [mkImageMessage []], [LogEntry.info p n], Except.ok ()⟩ ∧
    imageDataUrl [] = "data:image/png;base64," := by
  exact ⟨rfl, by decide⟩

/-- C4: a unit whose reader raises mid-transfer (before the context swap)
leaves the shared context exactly as it was before the unit started, and
its task handle is removed from the tracking list. -/
theorem failed_unit_leaves_context_unchanged (p n e : String) (r : Reader)
    (ctx : ChatContext) (tasks : List Nat) (t : Nat)
    (hname : r.infoName = Except.ok n)
    (hfail : drainFrom [] r.events = Except.error e)
    (ht : t ∉ tasks) :
    (runUnit p r ctx tasks t).1 = ctx ∧
    (runUnit p r ctx tasks t).2.1 = tasks := by
  unfold runUnit
  rw [imageReceived_drain_error p n e r ctx hname hfail,
      tasksRetire_tasksAppend tasks t ht]
  exact ⟨rfl, rfl⟩

/-- C4 witness: a reader that yields one chunk and then raises. -/
theorem failed_unit_leaves_context_unchanged_witness :
    (runUnit "alice" ⟨Except.ok "img", [ChunkEvent.chunk [1],
        ChunkEvent.err "broken pipe"], Except.ok ()⟩ [] [] 7).1 = [] ∧
    (runUnit "alice" ⟨Except.ok "img", [ChunkEvent.chunk [1],
        ChunkEvent.err "broken pipe"], Except.ok ()⟩ [] [] 7).2.1 = [] :=
  failed_unit_leaves_context_unchanged "alice" "img" "broken pipe"
    ⟨Except.ok "img", [ChunkEvent.chunk [1], ChunkEvent.err "broken pipe"],
     Except.ok ()⟩ [] [] 7 rfl rfl (by simp)

/-- C5: any error raised while assembling chunks or while merging (the
awaited `update_chat_ctx`) is caught inside the unit, an error record is
logged, the coroutine returns normally (no propagation to the supervisor,
router, or other units), and the unit still retires: its handle is removed
from the tracking list. -/
theorem unit_errors_contained (p n : String) (r : Reader)
    (ctx : ChatContext) (tasks : List Nat) (t : Nat)
    (hname : r.infoName = Except.ok n)
    (hfail : (∃ e, drainFrom [] r.events = Except.error e) ∨
             (∃ e, r.mergeResult = Except.error e))
    (ht : t ∉ tasks) :
    (imageReceived p r ctx).outcome = Except.ok () ∧
    (∃ e, LogEntry.error e ∈ (imageReceived p r ctx).logged) ∧
    (runUnit p r ctx tasks t).2.1 = tasks := by
  have htasks : (runUnit p r ctx tasks t).2.1 = tasks := by
    unfold runUnit
    rw [tasksRetire_tasksAppend tasks t ht]
  rcases hfail with ⟨e, he⟩ | ⟨e, he⟩
  · rw [imageReceived_drain_error p n e r ctx hname he]
    exact ⟨rfl, ⟨e, by simp⟩, htasks⟩
  · rcases hdrain : drainFrom [] r.events with e2 | bs
    · rw [imageReceived_drain_error p n e2 r ctx hname hdrain]
      exact ⟨rfl, ⟨e2, by simp⟩, htasks⟩
    · rw [imageReceived_merge_error p n e bs r ctx hname hdrain he]
      exact ⟨rfl, ⟨e, by simp⟩, htasks⟩

/-- C5 witness: a reader that yields one chunk and then raises. -/
theorem unit_errors_contained_witness :
    (imageReceived "alice" ⟨Except.ok "img", [ChunkEvent.chunk [1],
        ChunkEvent.err "broken pipe"], Except.ok ()⟩ []).outcome =
      Except.ok () ∧
    (∃ e, LogEntry.error e ∈ (imageReceived "alice" ⟨Except.ok "img",
        [ChunkEvent.chunk [1], ChunkEvent.err "broken pipe"],
        Except.ok ()⟩ []).logged) ∧
    (runUnit "alice" ⟨Except.ok "img", [ChunkEvent.chunk [1],
        ChunkEvent.err "broken pipe"], Except.ok ()⟩ [] [] 7).2.1 = [] :=
  unit_errors_contained "alice" "img"
    ⟨Except.ok "img", [ChunkEvent.chunk [1], ChunkEvent.err "broken pipe"],
     Except.ok ()⟩ [] [] 7 rfl (Or.inl ⟨"broken pipe", rfl⟩) (by simp)

/-- C10: the `reader.info.name` read (and its info log) happens before the
`try:` block, so a reader whose metadata access raises escapes the unit's
catch: the task fails with an uncaught error, nothing is logged by the
unit, and the context is untouched. -/
theorem metadata_failure_escapes (p e : String) (r : Reader)
    (ctx : ChatContext)
    (h : r.infoName = Except.error e) :
    imageReceived p r ctx = ⟨ctx, [], Except.error e⟩ := by
  obtain ⟨info, events, merge⟩ := r
  dsimp only at h
  subst h
  rfl

/-- C10 witness: a reader whose `info.name` access raises. -/
theorem metadata_failure_escapes_witness :
    imageReceived "alice" ⟨Except.error "no info", [], Except.ok ()⟩ [] =
      ⟨[], [], Except.error "no info"⟩ :=
  metadata_failure_escapes "alice" "no info"
    ⟨Except.error "no info", [], Except.ok ()⟩ [] rfl

/-- C6: the stream handler never blocks on a transfer: spawning leaves the
shared context untouched, leaves every earlier unit exactly as it was
(they stay in flight), adds one new unit whose phase is the initial one —
empty buffer, no chunk yet consumed, no transfer step performed — and the
handler's only tracking action is appending the new handle. -/
theorem handler_spawns_without_blocking (s : Sys) (chunks : List (List Byte))
    (tasks : List Nat) (t : Nat) :
    (handlerSpawn s chunks).ctx = s.ctx ∧
    (handlerSpawn s chunks).units.take s.units.length = s.units ∧
    (handlerSpawn s chunks).units.get? s.units.length =
      some (UnitPhase.draining [] chunks) ∧
    (handlerSpawn s chunks).units.length = s.units.length + 1 ∧
    tasksAppend tasks t = tasks ++ [t] := by
  refine ⟨rfl, ?_, ?_, by simp [handlerSpawn], rfl⟩
  · simp [handlerSpawn, List.take_left]
  · simp [handlerSpawn]

/-- C8: `on_enter` registers exactly one handler, for the single fixed
channel name `"test"`; a second registration for that name is rejected by
the registry (modelled from the spec); and no channel name ever dispatches
an incoming stream to more than one handler. -/
theorem register_once_no_double_dispatch :
    onEnterChannelNames = ["test"] ∧
    registryAfterOnEnter = Except.ok ⟨[("test", 0)]⟩ ∧
    dispatchStream ⟨[("test", 0)]⟩ "test" = [0] ∧
    (∀ h2 : Nat, registerByteStreamHandler ⟨[("test", 0)]⟩ "test" h2 =
      Except.error "handler already registered") ∧
    (∀ name : String, (dispatchStream ⟨[("test", 0)]⟩ name).length ≤ 1) := by
  refine ⟨rfl, rfl, rfl, fun h2 => rfl, fun name => ?_⟩
  simp only [dispatchStream, List.length_map]
  exact le_trans (List.length_filter_le _ _) (by simp)

/-- Two units, one chunk each ([10] and [20]), over an initially empty
context: the start state for the lost-update schedule. -/
def lostUpdateStart : Sys :=
  ⟨[], [UnitPhase.draining [] [[10]], UnitPhase.draining [] [[20]]]⟩

/-- C1: the code does NOT prevent lost updates. Schedule
`[0, 0, 1, 1, 0, 1]`: unit 0 receives its chunk and builds its snapshot
(copy + append) from the empty context; unit 1 does the same before unit
0's awaited `update_chat_ctx` completes; unit 0 publishes; unit 1's later
publish replaces the context with its own snapshot, which was copied
before unit 0's message was published. Both units complete successfully
(both retire through the merge path), yet the final context holds exactly
one new image message — unit 0's message is silently discarded. -/
theorem lost_update_two_successful_merges :
    run lostUpdateStart [0, 1, 0, 1, 0, 1] =
      ⟨[mkImageMessage [20]], [UnitPhase.retired, UnitPhase.retired]⟩ ∧
    (run lostUpdateStart [0, 1, 0, 1, 0, 1]).ctx.length = 1 := by
  exact ⟨rfl, rfl⟩

/-- Two units with interleaved chunk arrivals (unit 0 accumulates
[1] then [2]; unit 1 accumulates [3] then [4]) over an initially empty
context. -/
def interleavedStart : Sys :=
  ⟨[], [UnitPhase.draining [] [[1], [2]], UnitPhase.draining [] [[3], [4]]]⟩

/-- C7: under the round-robin schedule `[0, 1, 0, 1, 0, 1, 0, 1]` the two
buffers never contaminate each other — the surviving message holds exactly
its own stream's bytes `[3, 4]` in order — but the claim's "both
eventually appear" part fails: both units retire successfully, yet unit
0's message (bytes `[1, 2]`) is absent from the final context, lost to the
same copy-then-swap race. -/
theorem interleaved_streams_lose_one_message :
    run interleavedStart [0, 1, 0, 1, 0, 1, 0, 1] =
      ⟨[mkImageMessage [3, 4]], [UnitPhase.retired, UnitPhase.retired]⟩ ∧
    mkImageMessage [1, 2] ∉
      (run interleavedStart [0, 1, 0, 1, 0, 1, 0, 1]).ctx := by
  refine ⟨rfl, ?_⟩
  decide
